import Mathlib

/-!
Verification development for the edge-core-js fragments: the login and
voucher schema validators (cleaners), the domain error constructors, the
exchange-rate fetch worker, the context watcher, and the makeContext
entry checks. Each JavaScript function used by a claim is embedded as an
executable Lean definition; machine integers and dates are modelled as
Int, byte arrays as List Nat, and JSON-like documents as the Value type.
-/

/-- A JavaScript runtime value as seen by the cleaners: undefined, null,
booleans, numbers (modelled as Int, since no claim exercises float
behavior), strings, arrays, plain objects (ordered field lists with
unique keys, as produced by a JSON parse), and Date instances (epoch
milliseconds). -/
inductive Value where
  | notDefined
  | null
  | bool (b : Bool)
  | num (n : Int)
  | str (s : String)
  | arr (elems : List Value)
  | obj (fields : List (String × Value))
  | date (t : Int)

/-- The JavaScript test `raw == null`, true for both null and undefined. -/
def Value.isNullish : Value → Bool
  | .notDefined => true
  | .null => true
  | _ => false

/-- Property lookup `raw[key]` on a parsed object: a missing key yields
undefined. -/
def fieldVal (fields : List (String × Value)) (key : String) : Value :=
  (List.lookup key fields).getD .notDefined

/-- Cleaner `asString` from the cleaners library: accepts exactly strings. -/
def asString : Value → Except String String
  | .str s => .ok s
  | _ => .error "Expected a string"

/-- Cleaner `asNumber` from the cleaners library: accepts exactly numbers. -/
def asNumber : Value → Except String Int
  | .num n => .ok n
  | _ => .error "Expected a number"

/-- A simplified model of JavaScript date-string parsing used by
`new Date(string)`: a non-empty all-digit string parses as an epoch
timestamp, anything else is an invalid date. No claim depends on the
exact accepted date formats, only on parse success being a pure
function of the string. -/
def parseDateText (s : String) : Option Int :=
  if s.length ≠ 0 ∧ s.data.all Char.isDigit then some (s.toNat!) else none

/-- Cleaner `asDate` from the cleaners library: builds `new Date(raw)`
from a Date instance, a string, or a number, and fails on an invalid
date or any other input type. -/
def asDate : Value → Except String Int
  | .date t => .ok t
  | .num n => .ok n
  | .str s =>
    match parseDateText s with
    | some t => .ok t
    | none => .error "Expected a date"
  | _ => .error "Expected a date"

/-- Cleaner `asOptional(cleaner)` from the cleaners library: null or
undefined become undefined (none); other values go through the inner
cleaner. -/
def asOptionalC (cleaner : Value → Except String α) (raw : Value) :
    Except String (Option α) :=
  if raw.isNullish then .ok none else (cleaner raw).map some

/-- Cleaner `asOptional(cleaner, fallback)` from the cleaners library:
null or undefined become the fallback; other values go through the
inner cleaner. -/
def asOptionalD (cleaner : Value → Except String α) (fallback : α)
    (raw : Value) : Except String α :=
  if raw.isNullish then .ok fallback else cleaner raw

/-- Cleaner `asArray(cleaner)` from the cleaners library: accepts exactly
arrays and cleans every element, failing on the first bad element. -/
def asArray (cleaner : Value → Except String α) : Value → Except String (List α)
  | .arr elems => elems.mapM cleaner
  | _ => .error "Expected an array"

/-- The value of one base64 alphabet character (RFC 4648). -/
def b64Val (c : Char) : Option Nat :=
  if 'A' ≤ c ∧ c ≤ 'Z' then some (c.toNat - 65)
  else if 'a' ≤ c ∧ c ≤ 'z' then some (c.toNat - 97 + 26)
  else if '0' ≤ c ∧ c ≤ '9' then some (c.toNat - 48 + 52)
  else if c = '+' then some 62
  else if c = '/' then some 63
  else none

/-- Decode base64 text four characters at a time, honoring trailing
padding; any stray character or malformed group is a failure. -/
def b64Groups : List Char → Option (List Nat)
  | [] => some []
  | a :: b :: c :: d :: rest => do
    let va ← b64Val a
    let vb ← b64Val b
    if c = '=' ∧ d = '=' ∧ rest = [] then
      some [va * 4 + vb / 16]
    else
      match b64Val c with
      | none => none
      | some vc =>
        if d = '=' ∧ rest = [] then
          some [va * 4 + vb / 16, (vb % 16) * 16 + vc / 4]
        else do
          let vd ← b64Val d
          let tail ← b64Groups rest
          some ([va * 4 + vb / 16, (vb % 16) * 16 + vc / 4, (vc % 4) * 64 + vd] ++ tail)
  | _ => none

/-- Modelled from the spec: the `asBase64` cleaner from server-cleaners.js
(not among the provided sources) decodes base64 text into a raw byte
sequence, and a malformed encoding is a validation failure, not a
silent empty result. -/
def asBase64 (raw : Value) : Except String (List Nat) := do
  let s ← asString raw
  match b64Groups s.data with
  | some bytes => .ok bytes
  | none => .error "Expected base64 text"

/-- The value of one base32 alphabet character (RFC 4648). -/
def b32Val (c : Char) : Option Nat :=
  if 'A' ≤ c ∧ c ≤ 'Z' then some (c.toNat - 65)
  else if '2' ≤ c ∧ c ≤ '7' then some (c.toNat - 50 + 26)
  else none

/-- Accumulate base32 characters into bytes through a bit buffer. -/
def b32Fold : List Char → Nat → Nat → Option (List Nat)
  | [], _, _ => some []
  | c :: rest, acc, bits =>
    if c = '=' then
      if rest.all (· = '=') then some [] else none
    else
      match b32Val c with
      | none => none
      | some v =>
        let acc := acc * 32 + v
        let bits := bits + 5
        if bits ≥ 8 then
          match b32Fold rest (acc % 2 ^ (bits - 8)) (bits - 8) with
          | some tail => some (acc / 2 ^ (bits - 8) :: tail)
          | none => none
        else
          match b32Fold rest acc bits with
          | some tail => some tail
          | none => none

/-- Modelled from the spec: the `asBase32` cleaner from server-cleaners.js
(not among the provided sources) decodes one-time-password secrets from
base32 text into raw bytes; a malformed encoding is a validation
failure. -/
def asBase32 (raw : Value) : Except String (List Nat) := do
  let s ← asString raw
  match b32Fold s.data 0 0 with
  | some bytes => .ok bytes
  | none => .error "Expected base32 text"

/-- An encrypted ciphertext envelope. Modelled from the spec: an opaque
envelope holding an algorithm tag, an IV, and the ciphertext, whose
exact shape is owned by the sibling server-cleaners module. -/
structure EdgeBox where
  encryptionType : Int
  iv : List Nat
  ciphertext : List Nat
deriving DecidableEq

/-- Modelled from the spec: the `asEdgeBox` cleaner from
server-cleaners.js (not among the provided sources) validates an
encrypted-box document: algorithm tag, IV, and ciphertext, each
mandatory, with binary parts base64 encoded. -/
def asEdgeBox (raw : Value) : Except String EdgeBox :=
  match raw with
  | .obj fs => do
    let encryptionType ← asNumber (fieldVal fs "encryptionType")
    let iv ← asBase64 (fieldVal fs "iv")
    let ciphertext ← asBase64 (fieldVal fs "ciphertext")
    .ok { encryptionType, iv, ciphertext }
  | _ => .error "Expected an object"

/-- A key-derivation parameter set. Modelled from the spec glossary:
salt, iteration count, and work factors. -/
structure EdgeSnrp where
  salt : List Nat
  n : Int
  r : Int
  p : Int
deriving DecidableEq

/-- Modelled from the spec: the `asEdgeSnrp` cleaner from
server-cleaners.js (not among the provided sources) validates a
key-derivation parameter set: a base64 salt plus numeric work
factors. -/
def asEdgeSnrp (raw : Value) : Except String EdgeSnrp :=
  match raw with
  | .obj fs => do
    let salt ← asBase64 (fieldVal fs "salt_hex")
    let n ← asNumber (fieldVal fs "n")
    let r ← asNumber (fieldVal fs "r")
    let p ← asNumber (fieldVal fs "p")
    .ok { salt, n, r, p }
  | _ => .error "Expected an object"

/-- Modelled from the spec: the `asRecovery2Auth` cleaner from
server-cleaners.js (not among the provided sources) validates a
sequence of independently base64-encoded per-question digests. -/
def asRecovery2Auth (raw : Value) : Except String (List (List Nat)) :=
  asArray asBase64 raw

/-- The voucher status union type from part_000:
pending, approved, or rejected. -/
inductive VoucherStatus where
  | pending
  | approved
  | rejected
deriving DecidableEq

/-- The literal text of one voucher status token. -/
def statusText : VoucherStatus → String
  | .pending => "pending"
  | .approved => "approved"
  | .rejected => "rejected"

/-- The `asValue(p, a, r)` cleaner applied to the status field: accepts
exactly the three literal strings and never substitutes a default. -/
def asStatus (raw : Value) : Except String VoucherStatus :=
  match raw with
  | .str s =>
    if s = "pending" then .ok .pending
    else if s = "approved" then .ok .approved
    else if s = "rejected" then .ok .rejected
    else .error "Unexpected value"
  | _ => .error "Unexpected value"

/-- The VoucherDump record from part_000. -/
structure VoucherDump where
  loginId : List Nat
  voucherAuth : List Nat
  voucherId : String
  created : Int
  activates : Int
  status : VoucherStatus
  ip : String
  ipDescription : String
  deviceDescription : Option String
deriving DecidableEq

/-- The asVoucherDump cleaner from part_000 lines 120-135, field for
field in declaration order. -/
def asVoucherDump (v : Value) : Except String VoucherDump :=
  match v with
  | .obj fs => do
    let loginId ← asBase64 (fieldVal fs "loginId")
    let voucherAuth ← asBase64 (fieldVal fs "voucherAuth")
    let voucherId ← asString (fieldVal fs "voucherId")
    let created ← asDate (fieldVal fs "created")
    let activates ← asDate (fieldVal fs "activates")
    let status ← asStatus (fieldVal fs "status")
    let ip ← asString (fieldVal fs "ip")
    let ipDescription ← asString (fieldVal fs "ipDescription")
    let deviceDescription ← asOptionalC asString (fieldVal fs "deviceDescription")
    pure { loginId, voucherAuth, voucherId, created, activates, status, ip,
           ipDescription, deviceDescription }
  | _ => .error "Expected an object"

/-- The field bundle of the LoginDump record from part_000, parametrized
by the type of nested children so that the recursive record can be tied
off below. Field order follows the source type declaration. -/
structure LoginCore (L : Type) where
  appId : String
  created : Int
  loginId : List Nat
  children : List L
  parentBox : Option EdgeBox
  parentId : Option (List Nat)
  otpKey : Option (List Nat)
  otpResetAuth : Option String
  otpResetDate : Option Int
  otpTimeout : Option Int
  passwordAuth : Option (List Nat)
  passwordAuthBox : Option EdgeBox
  passwordAuthSnrp : Option EdgeSnrp
  passwordBox : Option EdgeBox
  passwordKeySnrp : Option EdgeSnrp
  pin2Id : Option (List Nat)
  pin2Auth : Option (List Nat)
  pin2Box : Option EdgeBox
  pin2KeyBox : Option EdgeBox
  pin2TextBox : Option EdgeBox
  recovery2Id : Option (List Nat)
  recovery2Auth : Option (List (List Nat))
  question2Box : Option EdgeBox
  recovery2Box : Option EdgeBox
  recovery2KeyBox : Option EdgeBox
  loginAuth : Option (List Nat)
  loginAuthBox : Option EdgeBox
  keyBoxes : List EdgeBox
  mnemonicBox : Option EdgeBox
  rootKeyBox : Option EdgeBox
  syncKeyBox : Option EdgeBox
  vouchers : List VoucherDump
  pinBox : Option EdgeBox
  pinId : Option String
  pinKeyBox : Option EdgeBox

/-- The recursive LoginDump tree from part_000: a core record whose
children are again LoginDump values. -/
inductive LoginDump where
  | mk (core : LoginCore LoginDump)

/-- Unwrap the field bundle of a LoginDump node. -/
def LoginDump.core : LoginDump → LoginCore LoginDump
  | .mk c => c

/-- The parentId field of a LoginDump node. -/
def LoginDump.parentId (d : LoginDump) : Option (List Nat) :=
  d.core.parentId

/-- The created field of a LoginDump node. -/
def LoginDump.created (d : LoginDump) : Int :=
  d.core.created

/-- The children field of a LoginDump node. -/
def LoginDump.children (d : LoginDump) : List LoginDump :=
  d.core.children

/-- The created cleaner of asLoginDump, part_000 line 140: a null or
undefined input becomes the current wall-clock reading (passed in
explicitly as now), anything else goes through asDate. -/
def asCreated (now : Int) (raw : Value) : Except String Int :=
  if raw.isNullish then .ok now else asDate raw

/-- The parentId cleaner of asLoginDump, part_000 line 149: it ignores
its input entirely and always produces undefined. -/
def asParentId (_raw : Value) : Except String (Option (List Nat)) :=
  .ok none

/-- The asLoginDump cleaner from part_000 lines 137-193, field for field
in declaration order. The JavaScript validator recurses through the
children field without any depth bound; the embedding adds an explicit
fuel argument that only bounds that recursion depth, and every theorem
below quantifies over the fuel, so any concrete document is covered as
soon as the fuel exceeds its nesting depth. The wall clock read by
new Date() is the explicit now argument. -/
def asLoginDump : Nat → Int → Value → Except String LoginDump
  | 0, _, _ => .error "Login tree too deep"
  | fuel + 1, now, v =>
    match v with
    | .obj fs => do
      let appId ← asString (fieldVal fs "appId")
      let created ← asCreated now (fieldVal fs "created")
      let loginId ← asBase64 (fieldVal fs "loginId")
      let children ← asOptionalD (asArray (asLoginDump fuel now)) []
        (fieldVal fs "children")
      let parentBox ← asOptionalC asEdgeBox (fieldVal fs "parentBox")
      let parentId ← asParentId (fieldVal fs "parentId")
      let otpKey ← asOptionalC asBase32 (fieldVal fs "otpKey")
      let otpResetAuth ← asOptionalC asString (fieldVal fs "otpResetAuth")
      let otpResetDate ← asOptionalC asDate (fieldVal fs "otpResetDate")
      let otpTimeout ← asOptionalC asNumber (fieldVal fs "otpTimeout")
      let passwordAuth ← asOptionalC asBase64 (fieldVal fs "passwordAuth")
      let passwordAuthBox ← asOptionalC asEdgeBox (fieldVal fs "passwordAuthBox")
      let passwordAuthSnrp ← asOptionalC asEdgeSnrp (fieldVal fs "passwordAuthSnrp")
      let passwordBox ← asOptionalC asEdgeBox (fieldVal fs "passwordBox")
      let passwordKeySnrp ← asOptionalC asEdgeSnrp (fieldVal fs "passwordKeySnrp")
      let pin2Id ← asOptionalC asBase64 (fieldVal fs "pin2Id")
      let pin2Auth ← asOptionalC asBase64 (fieldVal fs "pin2Auth")
      let pin2Box ← asOptionalC asEdgeBox (fieldVal fs "pin2Box")
      let pin2KeyBox ← asOptionalC asEdgeBox (fieldVal fs "pin2KeyBox")
      let pin2TextBox ← asOptionalC asEdgeBox (fieldVal fs "pin2TextBox")
      let recovery2Id ← asOptionalC asBase64 (fieldVal fs "recovery2Id")
      let recovery2Auth ← asOptionalC asRecovery2Auth (fieldVal fs "recovery2Auth")
      let question2Box ← asOptionalC asEdgeBox (fieldVal fs "question2Box")
      let recovery2Box ← asOptionalC asEdgeBox (fieldVal fs "recovery2Box")
      let recovery2KeyBox ← asOptionalC asEdgeBox (fieldVal fs "recovery2KeyBox")
      let loginAuth ← asOptionalC asBase64 (fieldVal fs "loginAuth")
      let loginAuthBox ← asOptionalC asEdgeBox (fieldVal fs "loginAuthBox")
      let keyBoxes ← asOptionalD (asArray asEdgeBox) [] (fieldVal fs "keyBoxes")
      let mnemonicBox ← asOptionalC asEdgeBox (fieldVal fs "mnemonicBox")
      let rootKeyBox ← asOptionalC asEdgeBox (fieldVal fs "rootKeyBox")
      let syncKeyBox ← asOptionalC asEdgeBox (fieldVal fs "syncKeyBox")
      let vouchers ← asOptionalD (asArray asVoucherDump) [] (fieldVal fs "vouchers")
      let pinBox ← asOptionalC asEdgeBox (fieldVal fs "pinBox")
      let pinId ← asOptionalC asString (fieldVal fs "pinId")
      let pinKeyBox ← asOptionalC asEdgeBox (fieldVal fs "pinKeyBox")
      pure (LoginDump.mk
        { appId, created, loginId, children, parentBox, parentId, otpKey,
          otpResetAuth, otpResetDate, otpTimeout, passwordAuth,
          passwordAuthBox, passwordAuthSnrp, passwordBox, passwordKeySnrp,
          pin2Id, pin2Auth, pin2Box, pin2KeyBox, pin2TextBox, recovery2Id,
          recovery2Auth, question2Box, recovery2Box, recovery2KeyBox,
          loginAuth, loginAuthBox, keyBoxes, mnemonicBox, rootKeyBox,
          syncKeyBox, vouchers, pinBox, pinId, pinKeyBox })
    | _ => .error "Expected an object"

/-- The nodes of a document at which the created field is populated
(neither absent nor null), checked through the same children recursion
that asLoginDump performs, with the same fuel convention. -/
def createdPresent : Nat → Value → Bool
  | 0, _ => false
  | fuel + 1, v =>
    match v with
    | .obj fs =>
      !(fieldVal fs "created").isNullish &&
        (match fieldVal fs "children" with
         | .arr elems => elems.all (createdPresent fuel)
         | _ => true)
    | _ => true

/-- A minimal valid login document that carries no created field. -/
def loginDocNoCreated : List (String × Value) :=
  [("appId", Value.str ""), ("loginId", Value.str "")]

/-- A minimal valid login document whose created field is populated and
which carries a parentId value that the validator must ignore. -/
def loginDocWithCreated : List (String × Value) :=
  [("appId", Value.str ""), ("created", Value.date 7),
   ("loginId", Value.str ""), ("parentId", Value.str "AAAA")]

/-- A concrete voucher document whose status is the literal approved. -/
def approvedVoucherFields : List (String × Value) :=
  [("loginId", Value.str ""), ("voucherAuth", Value.str ""),
   ("voucherId", Value.str "v"), ("created", Value.date 0),
   ("activates", Value.date 1), ("status", Value.str "approved"),
   ("ip", Value.str "1.2.3.4"), ("ipDescription", Value.str "home")]

/-- The same voucher document with the out-of-range status cancelled. -/
def cancelledVoucherFields : List (String × Value) :=
  [("loginId", Value.str ""), ("voucherAuth", Value.str ""),
   ("voucherId", Value.str "v"), ("created", Value.date 0),
   ("activates", Value.date 1), ("status", Value.str "cancelled"),
   ("ip", Value.str "1.2.3.4"), ("ipDescription", Value.str "home")]

/-- The VoucherDump that approvedVoucherFields cleans to. -/
def approvedVoucher : VoucherDump :=
  { loginId := [], voucherAuth := [], voucherId := "v", created := 0,
    activates := 1, status := .approved, ip := "1.2.3.4",
    ipDescription := "home", deviceDescription := none }

/-- The base64 alphabet in order (RFC 4648). -/
def b64Chars : List Char :=
  "ABCDEFGHIJKLMNOPQRSTUVWXYZabcdefghijklmnopqrstuvwxyz0123456789+/".data

/-- The base64 character of one sextet value. -/
def b64CharOf (n : Nat) : Char :=
  b64Chars.getD n 'A'

/-- Encode bytes as base64 characters, three bytes at a time, padding
the final group (RFC 4648). -/
def encodeBase64 : List Nat → List Char
  | [] => []
  | [x] => [b64CharOf (x / 4), b64CharOf (x % 4 * 16), '=', '=']
  | [x, y] => [b64CharOf (x / 4), b64CharOf (x % 4 * 16 + y / 16),
      b64CharOf (y % 16 * 4), '=']
  | x :: y :: z :: rest =>
    b64CharOf (x / 4) :: b64CharOf (x % 4 * 16 + y / 16) ::
      b64CharOf (y % 16 * 4 + z / 64) :: b64CharOf (z % 64) ::
      encodeBase64 rest

/-- The base64.stringify call from the rfc4648 library used by the
OtpError constructor to re-encode the voucher auth bytes as text. -/
def base64Stringify (bytes : List Nat) : String :=
  String.mk (encodeBase64 bytes)

/-- The result of new Date(string) collapsed to a timestamp; an
unparsable string (an Invalid Date in JavaScript) is collapsed to 0.
No claim depends on the exact parse, only on the field being set. -/
def jsNewDate (s : String) : Int :=
  (parseDateText s).getD 0

/-- The cleaned OTP error payload. Modelled from the spec: domain errors
extract optional sub-fields best-effort from the server payload; the
field names are exactly the ones the OtpError constructor in error.js
reads off the cleaned reply. -/
structure OtpErrorPayload where
  login_id : Option String
  otp_reset_auth : Option String
  otp_timeout_date : Option String
  reason : Option String
  voucher_activates : Option Int
  voucher_auth : Option (List Nat)
  voucher_id : Option String
deriving DecidableEq

/-- Modelled from the spec: the asOtpErrorPayload cleaner from
server-cleaners.js (not among the provided sources): an object document
with every sub-field optional, so that a missing field is tolerated but
a sub-field of the wrong shape, or a non-object payload, fails the
cleaning as a whole. -/
def asOtpErrorPayload (raw : Value) : Except String OtpErrorPayload :=
  match raw with
  | .obj fs => do
    let login_id ← asOptionalC asString (fieldVal fs "login_id")
    let otp_reset_auth ← asOptionalC asString (fieldVal fs "otp_reset_auth")
    let otp_timeout_date ← asOptionalC asString (fieldVal fs "otp_timeout_date")
    let reason ← asOptionalC asString (fieldVal fs "reason")
    let voucher_activates ← asOptionalC asDate (fieldVal fs "voucher_activates")
    let voucher_auth ← asOptionalC asBase64 (fieldVal fs "voucher_auth")
    let voucher_id ← asOptionalC asString (fieldVal fs "voucher_id")
    pure { login_id, otp_reset_auth, otp_timeout_date, reason,
           voucher_activates, voucher_auth, voucher_id }
  | _ => .error "Expected an object"

/-- The cleaned password error payload. Modelled from the spec: the one
sub-field the PasswordError constructor reads is the optional retry
wait time in seconds. -/
structure PasswordErrorPayload where
  wait_seconds : Option Int
deriving DecidableEq

/-- Modelled from the spec: the asPasswordErrorPayload cleaner from
server-cleaners.js (not among the provided sources): an object document
with an optional numeric wait_seconds sub-field. -/
def asPasswordErrorPayload (raw : Value) : Except String PasswordErrorPayload :=
  match raw with
  | .obj fs => do
    let wait_seconds ← asOptionalC asNumber (fieldVal fs "wait_seconds")
    pure { wait_seconds }
  | _ => .error "Expected an object"

/-- The observable fields of an OtpError instance from error.js. -/
structure OtpError where
  name : String
  type : String
  message : String
  reason : String
  loginId : Option String
  resetDate : Option Int
  resetToken : Option String
  voucherId : Option String
  voucherAuth : Option String
  voucherActivates : Option Int
deriving DecidableEq

/-- The OtpError constructor from error.js lines 148-184: the name,
type, and default reason are set first; then the payload is cleaned
inside a try block, and on success the optional sub-fields are copied
over, an absent sub-field leaving the error field unset; a cleaning
failure is swallowed by the catch and leaves every optional field
unset. -/
def mkOtpError (resultsJson : Value) (message : String) : OtpError :=
  let base : OtpError :=
    { name := "OtpError", type := "OtpError", message, reason := "otp",
      loginId := none, resetDate := none, resetToken := none,
      voucherId := none, voucherAuth := none, voucherActivates := none }
  match asOtpErrorPayload resultsJson with
  | .error _ => base
  | .ok reply =>
    { base with
      loginId := reply.login_id,
      resetToken := reply.otp_reset_auth,
      reason := if reply.reason = some "ip" then "ip" else "otp",
      resetDate := reply.otp_timeout_date.map jsNewDate,
      voucherActivates := reply.voucher_activates,
      voucherAuth := reply.voucher_auth.map base64Stringify,
      voucherId := reply.voucher_id }

/-- The observable fields of a PasswordError instance from error.js. -/
structure PasswordError where
  name : String
  type : String
  message : String
  wait : Option Int
deriving DecidableEq

/-- The PasswordError constructor from error.js lines 202-210: name and
type are set first; the payload is cleaned inside a try block and on
success wait is copied over; a cleaning failure is swallowed by the
catch and leaves wait unset. -/
def mkPasswordError (resultsJson : Value) (message : String) : PasswordError :=
  let base : PasswordError :=
    { name := "PasswordError", type := "PasswordError", message,
      wait := none }
  match asPasswordErrorPayload resultsJson with
  | .error _ => base
  | .ok clean => { base with wait := clean.wait_seconds }

/-- A concrete well-formed OTP error payload document. -/
def otpPayloadDoc : Value :=
  .obj [("login_id", .str "abc"), ("otp_reset_auth", .str "token123")]

/-- A concrete well-formed password error payload document. -/
def pwPayloadDoc : Value :=
  .obj [("wait_seconds", .num 10)]

/-- A currency pair as returned by a rate plugin. -/
structure RatePair where
  fromCurrency : String
  toCurrency : String
  rate : Int
deriving DecidableEq

/-- A tagged pair as dispatched by the exchange worker: the plugin pair
plus the plugin name as source and the shared fetch timestamp. -/
structure ExchangePair where
  fromCurrency : String
  toCurrency : String
  rate : Int
  source : String
  timestamp : Int
deriving DecidableEq

/-- What one registered rate plugin does when its fetchRates is called:
throw synchronously, return a promise that later rejects, or return a
pair list. -/
inductive PluginResult where
  | throws
  | rejects
  | ok (pairs : List RatePair)
deriving DecidableEq

/-- The async mapper inside doFetch, exchange-pixie.js lines 26-34. The
try block returns plugin.fetchRates(hintPairs) without awaiting it, so
the catch only sees synchronous throws and replaces them with an empty
list; a returned promise that rejects settles after the mapper has
already returned it, so the rejection escapes the catch and the mapped
promise rejects. -/
def runPlugin : PluginResult → Except Unit (List RatePair)
  | .throws => .ok []
  | .rejects => .error ()
  | .ok pairs => .ok pairs

/-- What one doFetch run does to the store. -/
inductive FetchOutcome where
  | noop
  | rejected
  | dispatched (pairs : List ExchangePair)
deriving DecidableEq

/-- The doFetch body from exchange-pixie.js lines 12-53: bail out while
the plugin list is not locked; run every named rate plugin through the
async mapper under Promise.all, which rejects as soon as any mapped
promise rejects, in which case nothing is dispatched; otherwise tag
every returned pair with its plugin name as source plus the shared
timestamp and dispatch one EXCHANGE_PAIRS_FETCHED action with exactly
those pairs. -/
def doFetch (locked : Bool) (plugins : List (String × PluginResult))
    (timestamp : Int) : FetchOutcome :=
  if !locked then .noop
  else
    match plugins.mapM (fun p => runPlugin p.2) with
    | .error _ => .rejected
    | .ok pairLists =>
      .dispatched (((plugins.map Prod.fst).zip pairLists).flatMap
        (fun nl => nl.2.map (fun rp =>
          { fromCurrency := rp.fromCurrency, toCurrency := rp.toCurrency,
            rate := rp.rate, source := nl.1, timestamp })))

/-- The mutable pieces of one exchange update pixie instance: the
closure variable timeout, the set of armed (scheduled, unfired,
uncancelled) timer ids, a fresh-id counter, and two instrumentation
counters: fetch attempts started and timers actually cancelled. -/
structure ExchangeWorker where
  timeout : Option Nat
  armed : List Nat
  nextId : Nat
  fetches : Nat
  cancels : Nat
deriving DecidableEq

/-- A freshly constructed exchange worker: the timeout variable is
undefined and no timer is armed. -/
def initWorker : ExchangeWorker :=
  { timeout := none, armed := [], nextId := 0, fetches := 0, cancels := 0 }

/-- The update entry from exchange-pixie.js lines 56-64: when timeout is
still undefined, run doFetch, swallow any rejection, then arm one
30-second timer whose callback is doFetch and record its id in timeout;
when timeout is already set, do nothing. The fetch attempt and the
completion handler that arms the timer are taken as one atomic step. -/
def updateStep (s : ExchangeWorker) : ExchangeWorker :=
  match s.timeout with
  | some _ => s
  | none =>
    { s with
      fetches := s.fetches + 1,
      timeout := some s.nextId,
      armed := s.nextId :: s.armed,
      nextId := s.nextId + 1 }

/-- The runtime fires an armed timer: the timer is spent and its
callback doFetch runs one fetch attempt; nothing on that code path
(exchange-pixie.js lines 12-53) arms another timer or clears the
timeout variable. -/
def timerFireStep (s : ExchangeWorker) (id : Nat) : ExchangeWorker :=
  if id ∈ s.armed then
    { s with
      armed := s.armed.erase id,
      fetches := s.fetches + 1 }
  else s

/-- The destroy entry from exchange-pixie.js lines 67-69, which runs
clearTimeout(timeout): clearing an undefined value or an id that is no
longer armed is a no-op, clearing an armed id cancels that one timer
(counted as one release); the timeout variable keeps its value. -/
def destroyStep (s : ExchangeWorker) : ExchangeWorker :=
  match s.timeout with
  | none => s
  | some id =>
    if id ∈ s.armed then
      { s with
        armed := s.armed.erase id,
        cancels := s.cancels + 1 }
    else s

/-- The slice of the root redux state that the context watcher reads:
three watched fields plus an unrelated field the watcher never looks
at. The JavaScript comparison is !== on whatever the reducer stored, so
the field values are modelled as opaque tokens compared by equality. -/
structure ContextState where
  localUsers : Nat
  paused : Bool
  logSettings : Nat
  other : Nat
deriving DecidableEq

/-- The closure variables of the watcher from part_001 line 174: the
last observed values of the three watched fields, all initially
undefined. -/
structure WatcherLast where
  lastLocalUsers : Option Nat
  lastPaused : Option Bool
  lastLogSettings : Option Nat
deriving DecidableEq

/-- The watcher component body from part_001 lines 176-189: on each
evaluation the three watched fields are compared against the recorded
values; when at least one differs the recorded values are refreshed and
update(api) is invoked provided the api output exists. The result is
the new memory paired with whether update(api) was invoked. -/
def watcherEval (last : WatcherLast) (st : ContextState)
    (apiPresent : Bool) : WatcherLast × Bool :=
  if last.lastLocalUsers ≠ some st.localUsers
      ∨ last.lastPaused ≠ some st.paused
      ∨ last.lastLogSettings ≠ some st.logSettings then
    ({ lastLocalUsers := some st.localUsers, lastPaused := some st.paused,
       lastLogSettings := some st.logSettings }, apiPresent)
  else (last, false)

/-- The makeContext options the entry checks read: apiKey and
authServer, either of which may be absent. -/
structure EdgeContextOptions where
  apiKey : Option String
  authServer : Option String
deriving DecidableEq

/-- A model of the JavaScript String.prototype.endsWith test. -/
def strEndsWith (s suffix : String) : Bool :=
  suffix.data.isSuffixOf s.data

/-- How far makeContext gets: one of its two throws, or past both
checks with the login server URI built. -/
inductive MakeContextOutcome where
  | invalidServer
  | missingApiKey
  | proceeds (loginServerUri : String)
deriving DecidableEq

/-- The entry checks of makeContext from part_001 lines 32-58: apiKey
and authServer are destructured (authServer defaulting to the edge
login server), then an authServer ending with neither .edge.app nor
.edgetest.app throws, then a null or undefined apiKey throws; only
after both checks does the function build loginServerUri as
authServer + /api and go on to create the redux store and the worker
tree, so the proceeds outcome marks reaching store creation. -/
def makeContextCheck (opts : EdgeContextOptions) : MakeContextOutcome :=
  let authServer := opts.authServer.getD "https://login.edge.app"
  if !strEndsWith authServer ".edge.app"
      && !strEndsWith authServer ".edgetest.app" then
    .invalidServer
  else if opts.apiKey.isNone then .missingApiKey
  else .proceeds (authServer ++ "/api")

theorem exceptBindOk {ε α β : Type} {x : Except ε α} {f : α → Except ε β}
    {b : β} : (x >>= f) = .ok b ↔ ∃ a, x = .ok a ∧ f a = .ok b := by
  cases x <;> simp [Bind.bind, Except.bind]

theorem exceptPureOk {ε β : Type} {r b : β} :
    (pure r : Except ε β) = .ok b ↔ r = b := by
  simp [Pure.pure, Except.pure]

theorem asStatus_ok {raw : Value} {st : VoucherStatus}
    (h : asStatus raw = .ok st) : raw = .str (statusText st) := by
  cases raw <;> simp only [asStatus] at h
  case str s =>
    split_ifs at h <;> cases st <;> simp_all [statusText]
  all_goals cases h

theorem asStatus_isOk (raw : Value) :
    (asStatus raw).isOk = true ↔
      raw = .str "pending" ∨ raw = .str "approved" ∨ raw = .str "rejected" := by
  cases raw <;> simp only [asStatus, Except.isOk, Except.toBool]
  case str s =>
    split_ifs with h1 h2 h3 <;> simp_all
  all_goals simp

/-- Claim C8: asVoucherDump accepts the status field exactly when it is
one of the three literal strings pending, approved, rejected; any other
value is a validation failure and an accepted status is carried over
verbatim, never coerced to a default. -/
theorem asVoucherDump_status_closure :
    (∀ raw, (asStatus raw).isOk = true ↔
        raw = .str "pending" ∨ raw = .str "approved" ∨ raw = .str "rejected")
    ∧ (∀ fs v, asVoucherDump (.obj fs) = .ok v →
        fieldVal fs "status" = .str (statusText v.status)) := by
  refine ⟨asStatus_isOk, ?_⟩
  intro fs v h
  simp only [asVoucherDump, exceptBindOk, exceptPureOk] at h
  obtain ⟨l, -, va, -, vid, -, c, -, act, -, st, hst, ip, -, ipd, -, dd, -, hv⟩ := h
  subst hv
  exact asStatus_ok hst

/-- Witness for claim C8 at concrete inputs: the literal approved is
accepted and carried through asVoucherDump verbatim, while the literal
cancelled fails validation. -/
theorem asVoucherDump_status_closure_witness :
    (asStatus (Value.str "approved")).isOk = true
    ∧ fieldVal approvedVoucherFields "status"
        = Value.str (statusText approvedVoucher.status)
    ∧ (asVoucherDump (Value.obj cancelledVoucherFields)).isOk = false := by
  refine ⟨?_, ?_, ?_⟩
  · exact (asVoucherDump_status_closure.1 (Value.str "approved")).mpr
      (Or.inr (Or.inl rfl))
  · exact asVoucherDump_status_closure.2 approvedVoucherFields approvedVoucher
      (by rfl)
  · rfl

theorem exceptBindCongr {ε α β : Type} {x : Except ε α}
    {f g : α → Except ε β} (h : ∀ a, f a = g a) :
    (x >>= f) = (x >>= g) := by
  cases x <;> simp [Bind.bind, Except.bind, h]

theorem fieldVal_cons_self {k : String} {x : Value}
    {fs : List (String × Value)} : fieldVal ((k, x) :: fs) k = x := by
  simp [fieldVal, List.lookup]

theorem asLoginDumpOkCore {f : Nat} {now : Int} {fs : List (String × Value)}
    {d : LoginDump} (h : asLoginDump (f + 1) now (.obj fs) = .ok d) :
    asCreated now (fieldVal fs "created") = .ok d.core.created
    ∧ d.core.parentId = none := by
  simp only [asLoginDump, exceptBindOk, exceptPureOk] at h
  obtain ⟨a1, -, a2, h2, a3, -, a4, -, a5, -, a6, h6, a7, -, a8, -, a9, -,
    a10, -, a11, -, a12, -, a13, -, a14, -, a15, -, a16, -, a17, -, a18, -,
    a19, -, a20, -, a21, -, a22, -, a23, -, a24, -, a25, -, a26, -, a27, -,
    a28, -, a29, -, a30, -, a31, -, a32, -, a33, -, a34, -, a35, -,
    hfin⟩ := h
  subst hfin
  simp only [asParentId, Except.ok.injEq] at h6
  exact ⟨h2, h6.symm⟩

/-- Claim C4: every LoginDump accepted by asLoginDump carries an
undefined parentId, no matter whether the input document had a parentId
value; the validator never populates parentId from serialized input. -/
theorem asLoginDump_parentId_undefined (fuel : Nat) (now : Int) (v : Value)
    (d : LoginDump) (h : asLoginDump fuel now v = .ok d) :
    d.parentId = none := by
  cases fuel with
  | zero => simp [asLoginDump] at h
  | succ f =>
    cases v
    case obj fs =>
      have hp := (asLoginDumpOkCore h).2
      simpa [LoginDump.parentId] using hp
    all_goals simp [asLoginDump] at h

/-- Witness for claim C4 at a concrete input that does carry a parentId
value: the cleaned record still has parentId undefined. -/
theorem asLoginDump_parentId_undefined_witness :
    (asLoginDump 1 0 (.obj loginDocWithCreated)).map LoginDump.parentId
      = .ok none := by
  cases h : asLoginDump 1 0 (.obj loginDocWithCreated) with
  | error e =>
    have hok : (asLoginDump 1 0 (.obj loginDocWithCreated)).isOk = true := by
      decide
    rw [h] at hok
    simp [Except.isOk, Except.toBool] at hok
  | ok d =>
    simp [Except.map,
      asLoginDump_parentId_undefined 1 0 (.obj loginDocWithCreated) d h]

/-- Claim C5: when the created field of a login document is absent or
null the validation still goes through, producing the wall-clock
reading of the call (the explicit now argument) as created, and when
the field is populated it is decoded through asDate instead. The third
part states the success half: a document that validates once a concrete
created date is supplied (and is in that sense otherwise valid) also
validates without it, with created defaulting to now and every other
field unchanged. -/
theorem asLoginDump_created_default :
    (∀ fuel now fs d, (fieldVal fs "created").isNullish = true →
        asLoginDump fuel now (.obj fs) = .ok d → d.created = now)
    ∧ (∀ fuel now fs d, (fieldVal fs "created").isNullish = false →
        asLoginDump fuel now (.obj fs) = .ok d →
        asDate (fieldVal fs "created") = .ok d.created)
    ∧ (∀ fuel now t fs1 fs2 d,
        (∀ key, key ≠ "created" → fieldVal fs1 key = fieldVal fs2 key) →
        fieldVal fs1 "created" = Value.date t →
        (fieldVal fs2 "created").isNullish = true →
        asLoginDump fuel now (.obj fs1) = .ok d →
        asLoginDump fuel now (.obj fs2)
          = .ok (.mk { d.core with created := now })) := by
  refine ⟨?_, ?_, ?_⟩
  · intro fuel now fs d hnull h
    cases fuel with
    | zero => simp [asLoginDump] at h
    | succ f =>
      have hc := (asLoginDumpOkCore h).1
      simp only [asCreated, hnull, if_pos, Except.ok.injEq] at hc
      simp [LoginDump.created, ← hc]
  · intro fuel now fs d hnn h
    cases fuel with
    | zero => simp [asLoginDump] at h
    | succ f =>
      have hc := (asLoginDumpOkCore h).1
      simp only [asCreated, hnn, Bool.false_eq_true, if_false] at hc
      exact hc
  · intro fuel now t fs1 fs2 d hk hct hnull h
    cases fuel with
    | zero => simp [asLoginDump] at h
    | succ f =>
      have hcr : asCreated now (fieldVal fs2 "created") = .ok now := by
        simp [asCreated, hnull]
      simp only [asLoginDump, exceptBindOk, exceptPureOk] at h ⊢
      rw [← hk "appId" (by decide), ← hk "loginId" (by decide),
        ← hk "children" (by decide), ← hk "parentBox" (by decide),
        ← hk "parentId" (by decide), ← hk "otpKey" (by decide),
        ← hk "otpResetAuth" (by decide), ← hk "otpResetDate" (by decide),
        ← hk "otpTimeout" (by decide), ← hk "passwordAuth" (by decide),
        ← hk "passwordAuthBox" (by decide),
        ← hk "passwordAuthSnrp" (by decide),
        ← hk "passwordBox" (by decide), ← hk "passwordKeySnrp" (by decide),
        ← hk "pin2Id" (by decide), ← hk "pin2Auth" (by decide),
        ← hk "pin2Box" (by decide), ← hk "pin2KeyBox" (by decide),
        ← hk "pin2TextBox" (by decide), ← hk "recovery2Id" (by decide),
        ← hk "recovery2Auth" (by decide), ← hk "question2Box" (by decide),
        ← hk "recovery2Box" (by decide), ← hk "recovery2KeyBox" (by decide),
        ← hk "loginAuth" (by decide), ← hk "loginAuthBox" (by decide),
        ← hk "keyBoxes" (by decide), ← hk "mnemonicBox" (by decide),
        ← hk "rootKeyBox" (by decide), ← hk "syncKeyBox" (by decide),
        ← hk "vouchers" (by decide), ← hk "pinBox" (by decide),
        ← hk "pinId" (by decide), ← hk "pinKeyBox" (by decide), hcr]
      obtain ⟨a1, h1, a2, h2, a3, h3, a4, h4, a5, h5, a6, h6, a7, h7, a8, h8,
        a9, h9, a10, h10, a11, h11, a12, h12, a13, h13, a14, h14, a15, h15,
        a16, h16, a17, h17, a18, h18, a19, h19, a20, h20, a21, h21, a22, h22,
        a23, h23, a24, h24, a25, h25, a26, h26, a27, h27, a28, h28, a29, h29,
        a30, h30, a31, h31, a32, h32, a33, h33, a34, h34, a35, h35,
        hfin⟩ := h
      subst hfin
      exact ⟨a1, h1, now, rfl, a3, h3, a4, h4, a5, h5, a6, h6, a7, h7, a8, h8,
        a9, h9, a10, h10, a11, h11, a12, h12, a13, h13, a14, h14, a15, h15,
        a16, h16, a17, h17, a18, h18, a19, h19, a20, h20, a21, h21, a22, h22,
        a23, h23, a24, h24, a25, h25, a26, h26, a27, h27, a28, h28, a29, h29,
        a30, h30, a31, h31, a32, h32, a33, h33, a34, h34, a35, h35, rfl⟩

/-- Witness for claim C5 at concrete inputs: a document lacking created
validates with created equal to the clock reading 5 (through both the
default part and the otherwise-valid success part of the theorem), and
a document carrying created as the date 7 decodes that date. -/
theorem asLoginDump_created_default_witness :
    (asLoginDump 1 5 (.obj loginDocNoCreated)).map LoginDump.created = .ok 5
    ∧ (asLoginDump 1 0 (.obj loginDocWithCreated)).map LoginDump.created
        = .ok 7 := by
  constructor
  · cases h : asLoginDump 1 5 (.obj (("created", Value.date 9) ::
        loginDocNoCreated)) with
    | error e =>
      have hok : (asLoginDump 1 5 (.obj (("created", Value.date 9) ::
          loginDocNoCreated))).isOk = true := by decide
      rw [h] at hok
      simp [Except.isOk, Except.toBool] at hok
    | ok d =>
      have h2 := asLoginDump_created_default.2.2 1 5 9
        (("created", Value.date 9) :: loginDocNoCreated) loginDocNoCreated d
        (fun key hne => by
          simp [fieldVal, List.lookup, beq_eq_false_iff_ne.mpr hne])
        (by rfl) (by rfl) h
      have h1 := asLoginDump_created_default.1 1 5 loginDocNoCreated
        (.mk { d.core with created := 5 }) (by rfl) h2
      rw [h2]
      simp [Except.map, h1]
  · cases h : asLoginDump 1 0 (.obj loginDocWithCreated) with
    | error e =>
      have hok : (asLoginDump 1 0 (.obj loginDocWithCreated)).isOk = true := by
        decide
      rw [h] at hok
      simp [Except.isOk, Except.toBool] at hok
    | ok d =>
      have hb := asLoginDump_created_default.2.1 1 0 loginDocWithCreated d
        (by rfl) h
      have hv : asDate (fieldVal loginDocWithCreated "created") = .ok 7 := by
        rfl
      rw [hv] at hb
      simp [Except.map]
      exact (Except.ok.inj hb).symm

theorem listMapMCongr {α β : Type} {f g : α → Except String β} :
    ∀ (xs : List α), (∀ x ∈ xs, f x = g x) → xs.mapM f = xs.mapM g := by
  intro xs
  induction xs with
  | nil => intro _; rfl
  | cons x rest ih =>
    intro h
    simp only [List.mapM_cons]
    rw [h x (by simp)]
    apply exceptBindCongr
    intro y
    rw [ih (fun z hz => h z (by simp [hz]))]

/-- Claim C3, as amended: asLoginDump is a pure function of the input
document and the clock reading, and on documents where the created
field is populated at every node the clock does not matter at all, so
two invocations agree. Only the created default introduces the clock. -/
theorem asLoginDump_clock_independent :
    ∀ (fuel : Nat) (t1 t2 : Int) (v : Value),
      createdPresent fuel v = true →
      asLoginDump fuel t1 v = asLoginDump fuel t2 v := by
  intro fuel t1 t2
  induction fuel with
  | zero => intro v h; simp [createdPresent] at h
  | succ f ih =>
    intro v h
    cases v
    case obj fs =>
      simp only [createdPresent, Bool.and_eq_true, Bool.not_eq_true'] at h
      obtain ⟨hnn, hch⟩ := h
      simp only [asLoginDump]
      apply exceptBindCongr
      intro a1
      have hcr : asCreated t1 (fieldVal fs "created")
          = asCreated t2 (fieldVal fs "created") := by
        simp [asCreated, hnn]
      rw [hcr]
      apply exceptBindCongr
      intro a2
      apply exceptBindCongr
      intro a3
      have hchl : asOptionalD (asArray (asLoginDump f t1)) []
            (fieldVal fs "children")
          = asOptionalD (asArray (asLoginDump f t2)) []
            (fieldVal fs "children") := by
        cases hcv : fieldVal fs "children" <;>
          simp only [asOptionalD, Value.isNullish, asArray]
        case arr elems =>
          rw [hcv] at hch
          simp only [List.all_eq_true] at hch
          exact listMapMCongr elems (fun x hx => ih x (hch x hx))
      rw [hchl]
    all_goals rfl

/-- Counterexample for claim C3 as stated: the minimal valid document
without a created field yields different trees when validated at clock
readings 0 and 1, so two invocations of asLoginDump on the same input
need not agree. -/
theorem asLoginDump_clock_counterexample :
    (asLoginDump 1 0 (.obj loginDocNoCreated)).map LoginDump.created = .ok 0
    ∧ (asLoginDump 1 1 (.obj loginDocNoCreated)).map LoginDump.created = .ok 1
    ∧ (asLoginDump 1 0 (.obj loginDocNoCreated)).map LoginDump.created
        ≠ (asLoginDump 1 1 (.obj loginDocNoCreated)).map LoginDump.created := by
  have h0 : (asLoginDump 1 0 (.obj loginDocNoCreated)).map LoginDump.created
      = .ok 0 := by rfl
  have h1 : (asLoginDump 1 1 (.obj loginDocNoCreated)).map LoginDump.created
      = .ok 1 := by rfl
  refine ⟨h0, h1, ?_⟩
  rw [h0, h1]
  simp

/-- Witness for the amended claim C3 at a concrete input: the document
with its created field populated cleans identically at clock readings
0 and 1. -/
theorem asLoginDump_clock_independent_witness :
    createdPresent 1 (.obj loginDocWithCreated) = true
    ∧ asLoginDump 1 0 (.obj loginDocWithCreated)
        = asLoginDump 1 1 (.obj loginDocWithCreated) :=
  ⟨by decide,
    asLoginDump_clock_independent 1 0 1 (.obj loginDocWithCreated) (by decide)⟩

/-- Claim C9: for every server payload value the OtpError and
PasswordError constructors complete (they are total functions) and set
the name token to OtpError and PasswordError respectively; when the
payload cleans, the optional sub-fields are copied onto the error, and
when cleaning fails every optional field is simply left unset while the
name is still correct. -/
theorem errorCtors_defensive :
    (∀ v m, (mkOtpError v m).name = "OtpError"
      ∧ (mkPasswordError v m).name = "PasswordError")
    ∧ (∀ v m e, asOtpErrorPayload v = .error e →
        (mkOtpError v m).loginId = none ∧ (mkOtpError v m).resetToken = none
        ∧ (mkOtpError v m).resetDate = none ∧ (mkOtpError v m).reason = "otp"
        ∧ (mkOtpError v m).voucherId = none
        ∧ (mkOtpError v m).voucherAuth = none
        ∧ (mkOtpError v m).voucherActivates = none)
    ∧ (∀ v m p, asOtpErrorPayload v = .ok p →
        (mkOtpError v m).loginId = p.login_id
        ∧ (mkOtpError v m).resetToken = p.otp_reset_auth
        ∧ (mkOtpError v m).resetDate = p.otp_timeout_date.map jsNewDate
        ∧ (mkOtpError v m).reason
            = (if p.reason = some "ip" then "ip" else "otp")
        ∧ (mkOtpError v m).voucherId = p.voucher_id
        ∧ (mkOtpError v m).voucherAuth = p.voucher_auth.map base64Stringify
        ∧ (mkOtpError v m).voucherActivates = p.voucher_activates)
    ∧ (∀ v m p, asPasswordErrorPayload v = .ok p →
        (mkPasswordError v m).wait = p.wait_seconds)
    ∧ (∀ v m e, asPasswordErrorPayload v = .error e →
        (mkPasswordError v m).wait = none) := by
  refine ⟨?_, ?_, ?_, ?_, ?_⟩
  · intro v m
    constructor
    · cases h : asOtpErrorPayload v <;> simp [mkOtpError, h]
    · cases h : asPasswordErrorPayload v <;> simp [mkPasswordError, h]
  · intro v m e h
    simp [mkOtpError, h]
  · intro v m p h
    simp [mkOtpError, h]
  · intro v m p h
    simp [mkPasswordError, h]
  · intro v m e h
    simp [mkPasswordError, h]

/-- Witness for claim C9 at concrete payloads: a null payload still
produces an error named OtpError with the optional fields unset, a
well-formed payload has its reset token extracted, and a well-formed
password payload has its wait extracted. -/
theorem errorCtors_defensive_witness :
    (mkOtpError .null "Invalid OTP token").name = "OtpError"
    ∧ (mkOtpError .null "Invalid OTP token").resetToken = none
    ∧ (mkOtpError otpPayloadDoc "Invalid OTP token").resetToken
        = some "token123"
    ∧ (mkPasswordError pwPayloadDoc "Invalid password").wait = some 10 := by
  refine ⟨(errorCtors_defensive.1 .null "Invalid OTP token").1, ?_, ?_, ?_⟩
  · have h : asOtpErrorPayload Value.null = .error "Expected an object" := by
      rfl
    exact (errorCtors_defensive.2.1 .null "Invalid OTP token" _ h).2.1
  · have h : asOtpErrorPayload otpPayloadDoc
        = .ok ⟨some "abc", some "token123", none, none, none, none, none⟩ := by
      rfl
    exact (errorCtors_defensive.2.2.1 otpPayloadDoc "Invalid OTP token" _ h).2.1
  · have h : asPasswordErrorPayload pwPayloadDoc = .ok ⟨some 10⟩ := by rfl
    exact errorCtors_defensive.2.2.2.1 pwPayloadDoc "Invalid password" _ h

/-- Claim C1 is contradicted by the code: only the very first update
call (timeout still undefined) runs a fetch and arms one 30-second
timer; the fetch attempt run by that timer arms nothing, so after the
second attempt completes no timer is armed, and any later update call
sees a non-null timeout and starts nothing. Fetch attempts cease
instead of recurring at the fixed interval for the lifetime of the
worker. This theorem evaluates the worker at that failing trace. -/
theorem exchange_fetch_stops_after_second_attempt :
    (timerFireStep (updateStep initWorker) 0).fetches = 2
    ∧ (timerFireStep (updateStep initWorker) 0).armed = []
    ∧ updateStep (timerFireStep (updateStep initWorker) 0)
        = timerFireStep (updateStep initWorker) 0 := by
  refine ⟨rfl, rfl, rfl⟩

/-- Claim C2 is contradicted by the code: the catch inside the async
mapper only intercepts synchronous throws, because the fetchRates
promise is returned without being awaited; a plugin whose promise
rejects therefore makes Promise.all and the whole doFetch reject, and
no EXCHANGE_PAIRS_FETCHED action is dispatched at all, instead of one
carrying the successful plugin's pairs. The first part evaluates
doFetch at that failing input; the second shows the synchronous-throw
case that the catch does tolerate. -/
theorem doFetch_reject_skips_dispatch :
    doFetch true
      [("good",
        .ok [{ fromCurrency := "BTC", toCurrency := "iso:USD", rate := 50000 }]),
       ("bad", .rejects)] 7 = .rejected
    ∧ doFetch true
      [("good",
        .ok [{ fromCurrency := "BTC", toCurrency := "iso:USD", rate := 50000 }]),
       ("bad", .throws)] 7
      = .dispatched
        [{ fromCurrency := "BTC", toCurrency := "iso:USD", rate := 50000,
           source := "good", timestamp := 7 }] := by
  refine ⟨rfl, rfl⟩

/-- Claim C7: the exchange worker's destroy is idempotent and safe
after a partial start. With distinct armed timer ids, destroying twice
equals destroying once (the second clearTimeout finds the timer already
cancelled and releases nothing), one destroy cancels at most one timer,
and a destroy before any timer was ever scheduled changes nothing and
raises no error (the step is a total function). -/
theorem destroy_idempotent (s : ExchangeWorker) (hnd : s.armed.Nodup) :
    destroyStep (destroyStep s) = destroyStep s
    ∧ (destroyStep s).cancels ≤ s.cancels + 1
    ∧ (s.timeout = none → destroyStep s = s) := by
  cases ht : s.timeout with
  | none =>
    have h1 : destroyStep s = s := by simp [destroyStep, ht]
    exact ⟨by simp [h1], by simp [h1], fun _ => h1⟩
  | some id =>
    by_cases hm : id ∈ s.armed
    · have h1 : destroyStep s
          = { s with armed := s.armed.erase id, cancels := s.cancels + 1 } := by
        simp [destroyStep, ht, hm]
      have h2 : id ∉ s.armed.erase id := by
        intro hc
        rcases (List.Nodup.mem_erase_iff hnd).1 hc with ⟨hne, _⟩
        exact hne rfl
      refine ⟨?_, ?_, ?_⟩
      · rw [h1]
        simp [destroyStep, ht, h2]
      · rw [h1]
      · intro h0
        exact Option.noConfusion h0
    · have h1 : destroyStep s = s := by simp [destroyStep, ht, hm]
      exact ⟨by simp [h1], by simp [h1], fun _ => h1⟩

/-- Witness for claim C7 at concrete states: destroying the worker
twice right after its first update equals destroying it once, and
destroying the freshly built worker (no timer ever scheduled) is a
no-op. -/
theorem destroy_idempotent_witness :
    destroyStep (destroyStep (updateStep initWorker))
      = destroyStep (updateStep initWorker)
    ∧ destroyStep initWorker = initWorker := by
  constructor
  · exact (destroy_idempotent (updateStep initWorker) (by decide)).1
  · exact (destroy_idempotent initWorker (by decide)).2.2 rfl

/-- Claim C6: with the api output present, the watcher invokes
update(api) exactly when at least one of the three watched fields
differs from the values recorded at the previous evaluation; when none
differs (in particular when only the unrelated other field of the state
changed) nothing is invoked and the recorded memory is untouched. -/
theorem watcher_update_iff (last : WatcherLast) (st : ContextState) :
    ((watcherEval last st true).2 = true ↔
      last.lastLocalUsers ≠ some st.localUsers
      ∨ last.lastPaused ≠ some st.paused
      ∨ last.lastLogSettings ≠ some st.logSettings)
    ∧ ((watcherEval last st true).2 = false →
        watcherEval last st true = (last, false)) := by
  by_cases h : last.lastLocalUsers ≠ some st.localUsers
      ∨ last.lastPaused ≠ some st.paused
      ∨ last.lastLogSettings ≠ some st.logSettings
  · simp [watcherEval, h]
  · simp [watcherEval, h]

/-- Witness for claim C6 at concrete states: a transition that only
changes the unrelated field invokes nothing, and a transition that
changes a watched field invokes the notification. -/
theorem watcher_update_iff_witness :
    (watcherEval
      { lastLocalUsers := some 1, lastPaused := some false,
        lastLogSettings := some 2 }
      { localUsers := 1, paused := false, logSettings := 2, other := 99 }
      true).2 = false
    ∧ (watcherEval
      { lastLocalUsers := some 1, lastPaused := some false,
        lastLogSettings := some 2 }
      { localUsers := 3, paused := false, logSettings := 2, other := 0 }
      true).2 = true := by
  constructor
  · rw [Bool.eq_false_iff]
    rw [Ne, (watcher_update_iff
      { lastLocalUsers := some 1, lastPaused := some false,
        lastLogSettings := some 2 }
      { localUsers := 1, paused := false, logSettings := 2,
        other := 99 }).1]
    simp
  · exact (watcher_update_iff
      { lastLocalUsers := some 1, lastPaused := some false,
        lastLogSettings := some 2 }
      { localUsers := 3, paused := false, logSettings := 2,
        other := 0 }).1.mpr (by simp)

/-- Claim C10: makeContext throws before creating any store or workers
whenever apiKey is null or undefined or the possibly-defaulted
authServer ends with neither .edge.app nor .edgetest.app; with the
default authServer and a non-null apiKey both checks pass and the
login server URI is built. -/
theorem makeContext_validation (opts : EdgeContextOptions) :
    ((opts.apiKey = none
        ∨ (strEndsWith (opts.authServer.getD "https://login.edge.app")
            ".edge.app" = false
          ∧ strEndsWith (opts.authServer.getD "https://login.edge.app")
            ".edgetest.app" = false)) →
      ∀ uri, makeContextCheck opts ≠ .proceeds uri)
    ∧ (∀ k, makeContextCheck { apiKey := some k, authServer := none }
        = .proceeds "https://login.edge.app/api") := by
  constructor
  · intro h uri hbad
    rcases h with hk | ⟨h1, h2⟩
    · by_cases hc : (!strEndsWith (opts.authServer.getD
          "https://login.edge.app") ".edge.app"
          && !strEndsWith (opts.authServer.getD
            "https://login.edge.app") ".edgetest.app") = true
      · simp [makeContextCheck, hc] at hbad
      · simp [makeContextCheck, hc, hk] at hbad
    · simp [makeContextCheck, h1, h2] at hbad
  · intro k
    rfl

/-- Witness for claim C10 at concrete options: a missing apiKey fails,
a server outside the allowed domains fails, and the default server with
an apiKey passes both checks. -/
theorem makeContext_validation_witness :
    makeContextCheck { apiKey := none, authServer := none }
      ≠ .proceeds "https://login.edge.app/api"
    ∧ makeContextCheck
      { apiKey := some "key", authServer := some "https://evil.example.com" }
      ≠ .proceeds "https://evil.example.com/api"
    ∧ makeContextCheck { apiKey := some "key", authServer := none }
      = .proceeds "https://login.edge.app/api" := by
  refine ⟨?_, ?_, ?_⟩
  · exact (makeContext_validation
      { apiKey := none, authServer := none }).1 (Or.inl rfl)
      "https://login.edge.app/api"
  · exact (makeContext_validation
      { apiKey := some "key",
        authServer := some "https://evil.example.com" }).1
      (Or.inr ⟨by decide, by decide⟩) "https://evil.example.com/api"
  · exact (makeContext_validation
      { apiKey := some "key", authServer := none }).2 "key"
